import Mathlib

/-
  Verification development for the ontology-management backend
  (src/backend/src of the repository under analysis).

  The embedding translates the Python classes into executable Lean
  definitions:

  * rdflib terms, triples and graphs become `Term`, `Triple` and `Graph`
    (a graph is a finite set of triples plus namespace bindings, matching
    the set semantics of an rdflib `Graph`);
  * Python object identity and in-place mutation are made explicit through
    a heap of graph objects (`SysState`): the `OntologyManager.graph`
    attribute, the graph captured by `ConstraintChecker.__init__`, and the
    graph captured by `SchemaManager.__init__` are modelled as indices into
    that heap, so rebinding (`self.graph = validated_graph`) and in-place
    mutation (`graph.add`, SPARQL INSERT) are distinguishable, exactly as
    in the source;
  * external effects (the owlrl reasoner, file serialization, the SPARQL
    engine, the language-model collaborators) enter as explicit parameters
    of the functions that call them.
-/

inductive Term where
  | uri (u : String)
  | lit (value : String) (datatype : Option String) (lang : Option String)
  deriving DecidableEq

structure Triple where
  subj : Term
  pred : Term
  obj : Term
  deriving DecidableEq

/-- A graph: set of triples plus namespace bindings, as in rdflib. The
triple collection is kept as a duplicate-free list (insertion is a no-op
on an already-present triple, matching rdflib set semantics, and
iteration order is deterministic as in CPython). -/
structure Graph where
  triples : List Triple
  ns : List (String × String)
  deriving DecidableEq

def Graph.empty : Graph := { triples := [], ns := [] }

/- Vocabulary constants used by the source (rdflib URIRef values). -/

def xsdStringURI : String := "http://www.w3.org/2001/XMLSchema#string"

def xsdIntegerURI : String := "http://www.w3.org/2001/XMLSchema#integer"

def rdf_type : Term := Term.uri "http://www.w3.org/1999/02/22-rdf-syntax-ns#type"

def rdfs_subClassOf : Term := Term.uri "http://www.w3.org/2000/01/rdf-schema#subClassOf"

def rdfs_domain : Term := Term.uri "http://www.w3.org/2000/01/rdf-schema#domain"

def rdfs_range : Term := Term.uri "http://www.w3.org/2000/01/rdf-schema#range"

def rdfs_label : Term := Term.uri "http://www.w3.org/2000/01/rdf-schema#label"

def xsd_string : Term := Term.uri xsdStringURI

def xsd_integer : Term := Term.uri xsdIntegerURI

def owl_DatatypeProperty : Term := Term.uri "http://www.w3.org/2002/07/owl#DatatypeProperty"

def prov_addedBy : Term := Term.uri "http://example.org/provenance#addedBy"

def prov_source : Term := Term.uri "http://example.org/provenance#source"

/-- `graph.add((s, p, o))` of rdflib: set insertion (idempotent). -/
def Graph.add (g : Graph) (t : Triple) : Graph :=
  { g with triples := g.triples.insert t }

/-- SPARQL DELETE DATA on one triple: set removal. -/
def Graph.remove (g : Graph) (t : Triple) : Graph :=
  { g with triples := g.triples.erase t }

/-- `graph.objects(s, p)` of rdflib: the objects of all triples with the
given subject and predicate. -/
def objectsOf (g : Graph) (s p : Term) : List Term :=
  (g.triples.filter (fun t => decide (t.subj = s ∧ t.pred = p))).map Triple.obj

/- ===== ConstraintChecker (src/validation/constraint_checker.py) ===== -/

/-- rdflib equality test `o.datatype == r` where `o.datatype` is a URIRef
or None and `r` is the declared range term. -/
def datatype_eq (dt : Option String) (r : Term) : Bool :=
  match dt, r with
  | some d, Term.uri u => d = u
  | _, _ => false

/-- ConstraintChecker._check_domain: looks up declared domains but, as the
source comments say, skips type inference and returns True in both
branches. -/
def check_domain (schema : Graph) (s p : Term) : Bool :=
  let domains := objectsOf schema p rdfs_domain
  if domains.isEmpty then true
  else
    let _ := s
    true

/-- ConstraintChecker._check_range. The Python loop over `ranges` returns
on its first iteration for both the Literal and the URIRef case, so only
the first declared range is consulted; with no declared range the check
passes. -/
def check_range (schema : Graph) (p o : Term) : Bool :=
  match objectsOf schema p rdfs_range with
  | [] => true
  | r :: _ =>
    match o with
    | Term.lit _ dt _ =>
      if datatype_eq dt r then true
      else if r = xsd_string ∧ (dt = none ∨ datatype_eq dt r) then true
      else false
    | Term.uri _ => true

/-- ConstraintChecker._check_single_triple: domain check then range check. -/
def check_single_triple (schema : Graph) (s p o : Term) : Bool :=
  if ! check_domain schema s p then false
  else if ! check_range schema p o then false
  else true

/-- ConstraintChecker.check_constraints: conjunction over the batch (the
source keeps iterating to log every violation, but the returned value is
the conjunction). -/
def check_constraints (schema : Graph) (triples : List Triple) : Bool :=
  triples.all (fun t => check_single_triple schema t.subj t.pred t.obj)

/- ===== System state: heap of graph objects ===== -/

structure SysState where
  heap : List Graph
  managerGid : Nat
  checkerGid : Nat
  schemaGid : Nat
  deriving DecidableEq

def heapGet (st : SysState) (i : Nat) : Graph := st.heap.getD i Graph.empty

def heapSet (st : SysState) (i : Nat) (g : Graph) : SysState :=
  { st with heap := st.heap.set i g }

/- ===== OntologyManager (src/ontology_manager.py) ===== -/

/-- OntologyManager.clone_graph: a fresh Graph object holding the same
triples and the same namespace bindings as the committed graph. -/
def clone_graph (st : SysState) : Graph :=
  let g := heapGet st st.managerGid
  { triples := g.triples, ns := g.ns }

/-- OntologyManager.save_graph. Serialization is an external effect passed
in as `serializeResult`; the source wraps it in try/except and only logs
the message on failure, so the function returns the logged error (if any)
and never raises. -/
def save_graph (serializeResult : Except String Unit) : Option String :=
  match serializeResult with
  | Except.ok _ => none
  | Except.error e => some e

/-- OntologyManager.merge_graph: rebinds `self.graph` to the validated
sandbox object (a fresh heap cell) and then calls save_graph. The second
component is the error message save_graph logged, if any; merge_graph
itself always returns normally and performs no rollback. -/
def merge_graph (st : SysState) (validated : Graph)
    (serializeResult : Except String Unit) : SysState × Option String :=
  ({ heap := st.heap ++ [validated]
     managerGid := st.heap.length
     checkerGid := st.checkerGid
     schemaGid := st.schemaGid },
   save_graph serializeResult)

/-- OntologyManager.add_triple: SPARQL INSERT DATA, an in-place mutation of
the object currently bound to `self.graph`. -/
def add_triple (st : SysState) (t : Triple) : SysState :=
  heapSet st st.managerGid ((heapGet st st.managerGid).add t)

/- ===== ValidationManager (src/validation/validation_manager.py) =====

   `ValidationManager.__init__` stores `ConstraintChecker(ontology_manager.graph)`,
   so the checker holds the graph object that `self.graph` denoted at
   construction time: that object is `heapGet st st.checkerGid`, which is
   consulted by every later `validate_and_commit` call.  `run_reasoning`
   (InferenceRunner / the external owlrl library) is a parameter: `none`
   models the exception branch (inconsistency), `some g2` the successful
   in-place expansion of the sandbox to `g2`. -/

/-- ValidationManager.validate_and_commit. -/
def validate_and_commit (run_reasoning : Graph → Option Graph)
    (serializeResult : Except String Unit) (st : SysState)
    (proposed : List Triple) : Bool × SysState :=
  if proposed = [] then (false, st)
  else
    let sandbox := proposed.foldl Graph.add (clone_graph st)
    if ! check_constraints (heapGet st st.checkerGid) proposed then (false, st)
    else
      match run_reasoning sandbox with
      | none => (false, st)
      | some expanded => (true, (merge_graph st expanded serializeResult).1)

/- ===== SchemaManager (src/super_agent/schema_manager.py) =====

   `SchemaManager.__init__` stores `self.graph = ontology_manager.graph`,
   capturing the graph object current at construction time: index
   `schemaGid` of the heap.  All add_* methods mutate that object in
   place. -/

/-- SchemaManager.add_datatype_property: adds type, domain, range and
label triples for the new property to the captured graph object. -/
def add_datatype_property (st : SysState) (prop dom rng : Term)
    (label : String) : SysState :=
  let g0 := heapGet st st.schemaGid
  let g1 := g0.add { subj := prop, pred := rdf_type, obj := owl_DatatypeProperty }
  let g2 := g1.add { subj := prop, pred := rdfs_domain, obj := dom }
  let g3 := g2.add { subj := prop, pred := rdfs_range, obj := rng }
  let g4 := g3.add { subj := prop, pred := rdfs_label, obj := Term.lit label none (some "en") }
  heapSet st st.schemaGid g4

/- ===== BaseAgent (src/agents/base_agent.py) ===== -/

/-- BaseAgent._add_with_provenance: three direct add_triple calls on the
committed graph (data triple plus two provenance triples); no validation
is involved. -/
def add_with_provenance (st : SysState) (agentName : String)
    (s p o : Term) (sourceUrl : String) : SysState :=
  let st1 := add_triple st { subj := s, pred := p, obj := o }
  let st2 := add_triple st1 { subj := s, pred := prov_addedBy, obj := Term.lit agentName none none }
  add_triple st2 { subj := s, pred := prov_source, obj := Term.uri sourceUrl }

/-- An agent enrichment cycle as dispatched by
Controller.handle_missing_entities: the agent inserts each fetched item
with _add_with_provenance, writing directly to the committed graph
(the controller comments note that validate_and_commit is skipped on
this path). -/
def run_enrichment_cycle (st : SysState) (agentName : String)
    (adds : List (Term × Term × Term × String)) : SysState :=
  adds.foldl (fun s x => add_with_provenance s agentName x.1 x.2.1 x.2.2.1 x.2.2.2) st

/- ===== Object aliasing helpers for the sandbox-isolation claims ===== -/

/-- Allocation of the clone as a distinct heap object (the fresh rdflib
Graph created by clone_graph); returns the new state and the new object
index. -/
def allocClone (st : SysState) : SysState × Nat :=
  ({ st with heap := st.heap ++ [clone_graph st] }, st.heap.length)

/-- A mutation performed on one graph object (sandbox_graph.add / SPARQL
DELETE DATA). -/
inductive MutOp where
  | add (t : Triple)
  | remove (t : Triple)
  deriving DecidableEq

def mutateObject (st : SysState) (gid : Nat) (op : MutOp) : SysState :=
  match op with
  | MutOp.add t => heapSet st gid ((heapGet st gid).add t)
  | MutOp.remove t => heapSet st gid ((heapGet st gid).remove t)

def mutateObjectMany (st : SysState) (gid : Nat) (ops : List MutOp) : SysState :=
  ops.foldl (fun s op => mutateObject s gid op) st

/- ===== Reasoner / query execution (src/reasoner.py, ontology_manager.py) ===== -/

/-- One result row after the string conversion performed by query_graph. -/
abbrev Row := List (String × String)

structure SparqlResponse where
  status : String
  bindings : List Row
  count : Nat
  message : Option String
  deriving DecidableEq

/-- OntologyManager.query_graph: the underlying rdflib engine either
returns rows or raises; the source catches every exception, logs it, and
returns the empty list. -/
def query_graph (engineResult : Except String (List Row)) : List Row :=
  match engineResult with
  | Except.ok rows => rows
  | Except.error _ => []

/-- Reasoner.execute_sparql: wraps query_graph. Because query_graph is
total (it swallows engine exceptions), the except branch of
execute_sparql that would produce a status-error dictionary is
unreachable; the returned dictionary is always the success shape. -/
def execute_sparql (engineResult : Except String (List Row)) : SparqlResponse :=
  let bindings := query_graph engineResult
  { status := "success", bindings := bindings, count := bindings.length, message := none }

/- ===== Controller.handle_user_query (src/controller.py) =====

   Phase 1 (routing plus query generation) is an external collaborator;
   its product is the initial SPARQL string.  The remaining collaborator
   outcomes observed by one handle_user_query call are collected in
   `QueryFlowEnv`: the response of each of the (up to four) execute_sparql
   call sites, the enrichment outcome, the refinement answer and the
   schema-proposal emptiness test.  The claim assumes no collaborator
   raises, which matches this total model. -/

structure QueryFlowEnv where
  initialResp : SparqlResponse
  enrichOutcome : Bool
  postEnrichResp : SparqlResponse
  refineSparql : Option String
  refineConfidencePct : Nat
  postRefineResp : SparqlResponse
  proposalNonEmpty : Bool
  postEvolveResp : SparqlResponse
  deriving DecidableEq

/-- The part of Reasoner.analyze_query_result the controller branches on. -/
structure Analysis where
  status : String
  isEmptyR : Bool
  bindings : List Row
  deriving DecidableEq

def analyze_query_result (r : SparqlResponse) : Analysis :=
  { status := r.status, isEmptyR := r.bindings.length == 0, bindings := r.bindings }

/-- Running record of one handle_user_query call: latest analysis, current
SPARQL string, number of execute_sparql calls so far. -/
abbrev FlowRec := Analysis × String × Nat

/-- Controller.handle_user_query, phase 2 (agent enrichment, lines
187-198): if the analysis is empty, dispatch agents; if they enriched,
re-execute the same query. -/
def phase_enrich (env : QueryFlowEnv) (p : FlowRec) : FlowRec :=
  if p.1.isEmptyR then
    if env.enrichOutcome then (analyze_query_result env.postEnrichResp, p.2.1, p.2.2 + 1)
    else p
  else p

/-- Controller.handle_user_query, phase 3a (refinement, lines 200-216):
adopt the refined query and re-execute when the collaborator returned a
truthy SPARQL string with confidence above 0.5. -/
def phase_refine (env : QueryFlowEnv) (p : FlowRec) : FlowRec :=
  if p.1.isEmptyR then
    match env.refineSparql with
    | some q2 =>
      if q2 ≠ "" ∧ env.refineConfidencePct > 50 then
        (analyze_query_result env.postRefineResp, q2, p.2.2 + 1)
      else p
    | none => p
  else p

/-- Controller.handle_user_query, phase 3b (schema evolution, lines
218-234): if the proposal adds anything, apply the schema update and
re-execute the current query. -/
def phase_evolve (env : QueryFlowEnv) (p : FlowRec) : FlowRec :=
  if p.1.isEmptyR then
    if env.proposalNonEmpty then (analyze_query_result env.postEvolveResp, p.2.1, p.2.2 + 1)
    else p
  else p

/-- Controller.handle_user_query (lines 144-243): initial execution
followed by the three escalation phases, then final-result packaging.
The returned number counts the execute_sparql calls made. -/
def handle_user_query (env : QueryFlowEnv) (initialSparql : String) : FlowRec :=
  phase_evolve env (phase_refine env (phase_enrich env
    (analyze_query_result env.initialResp, initialSparql, 1)))

/- ===== A concrete inference instance for witnesses and counterexamples ===== -/

/-- Modelled from the spec: InferenceRunner.run_reasoning delegates to the
external owlrl library (not part of this repository), which per section
4.3 of the spec computes the RDFS deductive closure over the sandbox,
"mutating it in place by adding only newly entailed triples (never
removing)"; subclass propagation is rule rdfs9.  This definition performs
one materialization pass of rdfs9: for triples (x, rdf:type, C) and
(C, rdfs:subClassOf, D) it inserts (x, rdf:type, D). -/
def rdfs9Materialize (g : Graph) : Graph :=
  { g with triples :=
      g.triples.foldl (fun acc t1 =>
        g.triples.foldl (fun acc2 t2 =>
          if t1.pred = rdf_type ∧ t2.pred = rdfs_subClassOf ∧ t1.obj = t2.subj then
            acc2.insert { subj := t1.subj, pred := rdf_type, obj := t2.obj }
          else acc2) acc) g.triples }

/-- Modelled from the spec: the success branch of
InferenceRunner.run_reasoning with the rdfs9 materialization pass (the
consistency check succeeded, the sandbox was expanded in place). -/
def rdfs9Infer (g : Graph) : Option Graph := some (rdfs9Materialize g)

/-- A reasoning run that materializes nothing and reports consistency
(the sandbox is already closed under inference). -/
def inferNoOp (g : Graph) : Option Graph := some g

/- ===== Helper lemmas on lists and the heap ===== -/

lemma getD_append_length {α : Type} (l : List α) (a d : α) :
    (l ++ [a]).getD l.length d = a := by
  induction l with
  | nil => rfl
  | cons x xs ih => exact ih

lemma getD_append_lt {α : Type} (l l2 : List α) (i : Nat) (d : α)
    (h : i < l.length) : (l ++ l2).getD i d = l.getD i d := by
  induction l generalizing i with
  | nil => exact absurd h (Nat.not_lt_zero i)
  | cons x xs ih =>
    cases i with
    | zero => rfl
    | succ n => simpa using ih n (by simpa using h)

lemma getD_set_self {α : Type} (l : List α) (i : Nat) (a d : α)
    (h : i < l.length) : (l.set i a).getD i d = a := by
  induction l generalizing i with
  | nil => exact absurd h (Nat.not_lt_zero i)
  | cons x xs ih =>
    cases i with
    | zero => rfl
    | succ n => simpa using ih n (by simpa using h)

lemma getD_set_ne {α : Type} (l : List α) (i j : Nat) (a d : α)
    (h : i ≠ j) : (l.set i a).getD j d = l.getD j d := by
  induction l generalizing i j with
  | nil => rfl
  | cons x xs ih =>
    cases i with
    | zero =>
      cases j with
      | zero => exact absurd rfl h
      | succ m => rfl
    | succ n =>
      cases j with
      | zero => rfl
      | succ m => simpa using ih n m (fun hnm => h (by rw [hnm]))

lemma heapGet_heapSet_ne (st : SysState) (i j : Nat) (g : Graph)
    (h : i ≠ j) : heapGet (heapSet st i g) j = heapGet st j := by
  unfold heapGet heapSet
  exact getD_set_ne st.heap i j g Graph.empty h

lemma heapGet_heapSet_self (st : SysState) (i : Nat) (g : Graph)
    (h : i < st.heap.length) : heapGet (heapSet st i g) i = g := by
  unfold heapGet heapSet
  exact getD_set_self st.heap i g Graph.empty h

lemma clone_graph_eq (st : SysState) :
    clone_graph st = heapGet st st.managerGid := rfl

/-- Shape of a successful validate_and_commit: the reasoner succeeded on
the sandbox and the returned state is the pre-state with the expanded
sandbox appended as a fresh object and the manager reference rebound to
it; the checker and schema references are untouched. -/
lemma vac_success_state (rr : Graph → Option Graph) (ser : Except String Unit)
    (st : SysState) (B : List Triple)
    (h : (validate_and_commit rr ser st B).1 = true) :
    ∃ expanded, rr (B.foldl Graph.add (clone_graph st)) = some expanded ∧
      (validate_and_commit rr ser st B).2 =
        { heap := st.heap ++ [expanded], managerGid := st.heap.length,
          checkerGid := st.checkerGid, schemaGid := st.schemaGid } := by
  by_cases hB : B = []
  · rw [hB] at h
    simp [validate_and_commit] at h
  · simp only [validate_and_commit, if_neg hB] at h ⊢
    cases hc : check_constraints (heapGet st st.checkerGid) B with
    | false => simp [hc] at h
    | true =>
      simp only [hc, Bool.not_true, Bool.false_eq_true, if_false] at h ⊢
      cases hr : rr (B.foldl Graph.add (clone_graph st)) with
      | none => rw [hr] at h; exact Bool.noConfusion h
      | some e => exact ⟨e, rfl, rfl⟩

/- ===== C1 ===== -/

/-- C1: for every non-empty batch, if validate_and_commit returns a
rejection (constraint failure or reasoning inconsistency), the returned
system state is exactly the pre-call state: the committed graph held by
the OntologyManager is triple-set-identical to its state before the
call, every mutation having gone only to the sandbox clone. -/
theorem C1_atomicity (rr : Graph → Option Graph) (ser : Except String Unit)
    (st : SysState) (B : List Triple) (hne : B ≠ [])
    (hrej : (validate_and_commit rr ser st B).1 = false) :
    (validate_and_commit rr ser st B).2 = st := by
  simp only [validate_and_commit, if_neg hne] at hrej ⊢
  cases hc : check_constraints (heapGet st st.checkerGid) B with
  | false => simp [hc]
  | true =>
    simp only [hc, Bool.not_true, Bool.false_eq_true, if_false] at hrej ⊢
    cases hr : rr (B.foldl Graph.add (clone_graph st)) with
    | none => rfl
    | some e => rw [hr] at hrej; exact Bool.noConfusion hrej

def pInt : Term := Term.uri "http://example.org/ontology#hasPageCount"

def gSchemaInt : Graph :=
  { triples := [ { subj := pInt, pred := rdfs_range, obj := xsd_integer } ], ns := [] }

def stW1 : SysState := { heap := [gSchemaInt], managerGid := 0, checkerGid := 0, schemaGid := 0 }

def tBadW1 : Triple :=
  { subj := Term.uri "http://example.org/ontology#P1", pred := pInt,
    obj := Term.lit "abc" none none }

/-- C1 witness: a concrete rejected batch (string literal against a
declared integer range) leaves the state untouched. -/
theorem C1_atomicity_witness :
    ([tBadW1] ≠ ([] : List Triple)) ∧
    (validate_and_commit inferNoOp (Except.ok ()) stW1 [tBadW1]).1 = false ∧
    (validate_and_commit inferNoOp (Except.ok ()) stW1 [tBadW1]).2 = stW1 :=
  ⟨by decide, by decide,
    C1_atomicity inferNoOp (Except.ok ()) stW1 [tBadW1] (by decide) (by decide)⟩

/- ===== C3 ===== -/

/-- C3 counterexample: an execution failure (the engine raising, e.g. on
an unresolvable namespace) produces a response that is equal to the
response of a successful execution with zero rows, with status "success";
the caller cannot tell the two apart, contrary to the claim. -/
theorem C3_counterexample :
    execute_sparql (Except.error "Unknown namespace") = execute_sparql (Except.ok []) ∧
    (execute_sparql (Except.error "Unknown namespace")).status = "success" ∧
    (execute_sparql (Except.error "Unknown namespace")).count = 0 :=
  ⟨rfl, rfl, rfl⟩

/-- C3 amended: when the underlying query engine raises,
OntologyManager.query_graph swallows the exception and returns the empty
list, so Reasoner.execute_sparql returns a status-success response with
zero bindings that is identical to the response for a query that ran and
matched nothing; execution failure is not distinguishable from an empty
result. -/
theorem C3_amended (e : String) :
    execute_sparql (Except.error e) = execute_sparql (Except.ok []) ∧
    (execute_sparql (Except.error e)).status = "success" ∧
    (execute_sparql (Except.error e)).bindings = [] ∧
    query_graph (Except.error e) = [] :=
  ⟨rfl, rfl, rfl, rfl⟩

/- ===== C5 ===== -/

def gPre5 : Graph :=
  { triples := [ { subj := Term.uri "http://example.org/ontology#W1",
                   pred := rdf_type,
                   obj := Term.uri "http://example.org/ontology#Paper" } ],
    ns := [] }

def st5 : SysState := { heap := [gPre5], managerGid := 0, checkerGid := 0, schemaGid := 0 }

def v5 : Graph :=
  gPre5.add { subj := Term.uri "http://example.org/ontology#W2",
              pred := rdf_type,
              obj := Term.uri "http://example.org/ontology#Paper" }

/-- C5 counterexample: with a failing persistence write, merge_graph still
installs the validated sandbox as the in-memory committed graph (which
differs from the pre-promote graph, so no rollback happened) and returns
normally, the write error being merely logged. -/
theorem C5_counterexample :
    heapGet (merge_graph st5 v5 (Except.error "No space left on device")).1
      ((merge_graph st5 v5 (Except.error "No space left on device")).1.managerGid) = v5 ∧
    v5 ≠ heapGet st5 st5.managerGid ∧
    (merge_graph st5 v5 (Except.error "No space left on device")).2 =
      some "No space left on device" :=
  ⟨by decide, by decide, rfl⟩

/-- C5 amended: when the persistence write fails, merge_graph catches the
error inside save_graph and only logs it; the in-memory committed graph
is still rebound to the validated sandbox (the state equals the state of
a successful promote) and the call returns normally, so there is neither
a persistence error surfaced to the caller nor a rollback. -/
theorem C5_amended (st : SysState) (v : Graph) (e : String) :
    (merge_graph st v (Except.error e)).1 = (merge_graph st v (Except.ok ())).1 ∧
    heapGet (merge_graph st v (Except.error e)).1
      ((merge_graph st v (Except.error e)).1.managerGid) = v ∧
    (merge_graph st v (Except.error e)).2 = some e := by
  refine ⟨rfl, ?_, rfl⟩
  show (st.heap ++ [v]).getD st.heap.length Graph.empty = v
  exact getD_append_length st.heap v Graph.empty

/- ===== C6 ===== -/

def st6 : SysState :=
  { heap := [{ triples := [], ns := [] }], managerGid := 0, checkerGid := 0, schemaGid := 0 }

def t6 : Triple :=
  { subj := Term.uri "http://example.org/ontology#W1",
    pred := Term.uri "http://example.org/ontology#cites",
    obj := Term.uri "http://example.org/ontology#W2" }

/-- C6 counterexample: validate_and_commit on the empty batch returns
False, the same outcome value as a rejection, while a successful commit
returns True; the empty batch therefore does not return a no-op success
of the same outcome class as a successful commit (the graph is left
unchanged, though). -/
theorem C6_counterexample :
    validate_and_commit inferNoOp (Except.ok ()) st6 [] = (false, st6) ∧
    (validate_and_commit inferNoOp (Except.ok ()) st6 [t6]).1 = true :=
  ⟨by decide, by decide⟩

/-- C6 amended: validate_and_commit on an empty batch returns False (the
rejection outcome value, not a distinguishable no-op success) and leaves
the system state, hence the committed graph, completely unchanged. -/
theorem C6_amended (rr : Graph → Option Graph) (ser : Except String Unit)
    (st : SysState) :
    validate_and_commit rr ser st [] = (false, st) := by
  simp [validate_and_commit]

/- ===== C7 ===== -/

/-- C7: when the schema declares exactly the range r for property p and
the object is a literal, the range check accepts precisely when the
literal datatype equals r, or r is xsd:string and the literal is untyped
or explicitly of datatype xsd:string. -/
theorem C7_range_enforcement (g : Graph) (p : Term) (v : String)
    (dt lang : Option String) (r : String)
    (hr : objectsOf g p rdfs_range = [Term.uri r]) :
    check_range g p (Term.lit v dt lang) = true ↔
      (dt = some r ∨ (r = xsdStringURI ∧ (dt = none ∨ dt = some xsdStringURI))) := by
  unfold check_range
  rw [hr]
  cases dt with
  | none =>
    by_cases hs : r = xsdStringURI
    · subst hs
      simp [datatype_eq, xsd_string]
    · simp [datatype_eq, xsd_string, hs]
  | some d =>
    by_cases hd : d = r
    · subst hd
      simp [datatype_eq]
    · by_cases hs : r = xsdStringURI
      · subst hs
        simp [datatype_eq, xsd_string, hd]
      · simp [datatype_eq, xsd_string, hd, hs]

/-- C7 witness: against the concrete schema declaring an integer range
for hasPageCount, a plain string literal is rejected and an
integer-typed literal is accepted. -/
theorem C7_range_enforcement_witness :
    objectsOf gSchemaInt pInt rdfs_range = [Term.uri xsdIntegerURI] ∧
    check_range gSchemaInt pInt (Term.lit "abc" none none) = false ∧
    check_range gSchemaInt pInt (Term.lit "5" (some xsdIntegerURI) none) = true := by
  refine ⟨by decide, ?_, ?_⟩
  · have h := C7_range_enforcement gSchemaInt pInt "abc" none none xsdIntegerURI (by decide)
    cases hcr : check_range gSchemaInt pInt (Term.lit "abc" none none) with
    | false => rfl
    | true =>
      exfalso
      rcases h.mp hcr with h1 | ⟨h2, _⟩
      · exact Option.noConfusion h1
      · exact absurd h2 (by decide)
  · exact (C7_range_enforcement gSchemaInt pInt "5" (some xsdIntegerURI) none
      xsdIntegerURI (by decide)).mpr (Or.inl rfl)

/- ===== C2 ===== -/

lemma phase_enrich_count (env : QueryFlowEnv) (p : FlowRec) :
    (phase_enrich env p).2.2 ≤ p.2.2 + 1 := by
  unfold phase_enrich
  split_ifs <;> simp

lemma phase_refine_count (env : QueryFlowEnv) (p : FlowRec) :
    (phase_refine env p).2.2 ≤ p.2.2 + 1 := by
  unfold phase_refine
  cases hq : env.refineSparql with
  | none => split_ifs <;> simp
  | some q2 =>
    by_cases h1 : p.1.isEmptyR = true
    · by_cases h2 : (q2 ≠ "" ∧ env.refineConfidencePct > 50)
      · simp [h1, h2]
      · simp [h1, h2]
    · simp [h1]

lemma phase_evolve_count (env : QueryFlowEnv) (p : FlowRec) :
    (phase_evolve env p).2.2 ≤ p.2.2 + 1 := by
  unfold phase_evolve
  split_ifs <;> simp

def emptyResp : SparqlResponse :=
  { status := "success", bindings := [], count := 0, message := none }

def envC2 : QueryFlowEnv :=
  { initialResp := emptyResp
    enrichOutcome := true
    postEnrichResp := emptyResp
    refineSparql := some "SELECT ?paper"
    refineConfidencePct := 90
    postRefineResp := emptyResp
    proposalNonEmpty := true
    postEvolveResp := emptyResp }

/-- All four execute_sparql call sites of one handle_user_query call
returned zero rows (the hypothesis of the claim). -/
def allRespsEmpty (env : QueryFlowEnv) : Bool :=
  env.initialResp.bindings.isEmpty && env.postEnrichResp.bindings.isEmpty &&
    env.postRefineResp.bindings.isEmpty && env.postEvolveResp.bindings.isEmpty

/-- C2 counterexample: a run in which every query execution is empty, the
enrichment dispatch reports success, the refinement is confident and the
schema proposal is non-empty performs four query executions (one initial
plus three re-executions), exceeding the three the claim allows. -/
theorem C2_counterexample :
    allRespsEmpty envC2 = true ∧
    (handle_user_query envC2 "SELECT ?paper").2.2 = 4 ∧
    ¬ ((handle_user_query envC2 "SELECT ?paper").2.2 ≤ 3) :=
  ⟨by decide, by decide, by decide⟩

/-- C2 amended: handle_user_query always terminates (it is a total
straight-line composition of the three escalation phases) and reaches
its final-result packaging after at most four query executions: the
initial one plus at most one re-execution after enrichment, one after
refinement and one after schema evolution. -/
theorem C2_amended (env : QueryFlowEnv) (q0 : String) :
    (handle_user_query env q0).2.2 ≤ 4 := by
  unfold handle_user_query
  have h0 : (analyze_query_result env.initialResp, q0, (1 : Nat)).2.2 = 1 := rfl
  have h1 := phase_enrich_count env (analyze_query_result env.initialResp, q0, 1)
  have h2 := phase_refine_count env
    (phase_enrich env (analyze_query_result env.initialResp, q0, 1))
  have h3 := phase_evolve_count env
    (phase_refine env (phase_enrich env (analyze_query_result env.initialResp, q0, 1)))
  rw [h0] at h1
  omega

/- ===== C4 ===== -/

def enrichedC4 : SysState :=
  run_enrichment_cycle stW1 "PaperAgent"
    [(Term.uri "http://example.org/ontology#P1", pInt, Term.lit "abc" none none,
      "https://api.openalex.org/W1")]

/-- C4: evaluation of the enrichment dispatch path at the failing input.
The agent writes its fetched triple (and provenance) straight into the
committed graph via OntologyManager.add_triple, with no call to
validate_and_commit; the inserted triple violates the declared integer
range of hasPageCount, so the validation gateway would have rejected the
very batch that now sits in the committed graph. -/
theorem C4_direct_mutation_eval :
    tBadW1 ∈ (heapGet enrichedC4 enrichedC4.managerGid).triples ∧
    check_constraints (heapGet stW1 stW1.checkerGid) [tBadW1] = false ∧
    (validate_and_commit inferNoOp (Except.ok ()) stW1 [tBadW1]).1 = false :=
  ⟨by decide, by decide, by decide⟩

/- ===== C8 ===== -/

lemma foldl_add_of_subset :
    ∀ (B : List Triple) (g : Graph), (∀ t ∈ B, t ∈ g.triples) →
      B.foldl Graph.add g = g := by
  intro B
  induction B with
  | nil => intro g _; rfl
  | cons t ts ih =>
    intro g h
    rw [List.foldl_cons]
    have hg : g.add t = g := by
      unfold Graph.add
      rw [List.insert_of_mem (h t (by simp))]
    rw [hg]
    exact ih g (fun x hx => h x (by simp [hx]))

/-- C8 amended: if the batch is already contained in the committed graph
and the reasoner materializes nothing new on that graph (it is already
closed under inference), then a successful validate_and_commit leaves the
committed graph, and in particular its triple count, unchanged; in
general a successful commit replaces the committed graph by the expanded
sandbox, whose count can exceed the original (see the counterexample). -/
theorem C8_idempotent_commit (rr : Graph → Option Graph) (ser : Except String Unit)
    (st : SysState) (B : List Triple)
    (hsub : ∀ t ∈ B, t ∈ (heapGet st st.managerGid).triples)
    (hfix : rr (heapGet st st.managerGid) = some (heapGet st st.managerGid))
    (hsucc : (validate_and_commit rr ser st B).1 = true) :
    heapGet (validate_and_commit rr ser st B).2
        (validate_and_commit rr ser st B).2.managerGid
      = heapGet st st.managerGid ∧
    (heapGet (validate_and_commit rr ser st B).2
        (validate_and_commit rr ser st B).2.managerGid).triples.length
      = (heapGet st st.managerGid).triples.length := by
  obtain ⟨e, hre, hst⟩ := vac_success_state rr ser st B hsucc
  have hsand : B.foldl Graph.add (clone_graph st) = heapGet st st.managerGid := by
    rw [clone_graph_eq]
    exact foldl_add_of_subset B (heapGet st st.managerGid) hsub
  rw [hsand, hfix] at hre
  injection hre with he
  have hmain : heapGet (validate_and_commit rr ser st B).2
      (validate_and_commit rr ser st B).2.managerGid = heapGet st st.managerGid := by
    rw [hst]
    show (st.heap ++ [e]).getD st.heap.length Graph.empty = heapGet st st.managerGid
    rw [getD_append_length]
    exact he.symm
  exact ⟨hmain, by rw [hmain]⟩

def gW8 : Graph :=
  { triples := [ { subj := Term.uri "http://example.org/ontology#W1",
                   pred := rdf_type,
                   obj := Term.uri "http://example.org/ontology#Paper" } ],
    ns := [] }

def stW8 : SysState := { heap := [gW8], managerGid := 0, checkerGid := 0, schemaGid := 0 }

def tW8 : Triple :=
  { subj := Term.uri "http://example.org/ontology#W1", pred := rdf_type,
    obj := Term.uri "http://example.org/ontology#Paper" }

/-- C8 witness: on a concrete inference-closed graph, re-committing an
already-present triple succeeds and leaves the committed graph and its
count unchanged. -/
theorem C8_idempotent_commit_witness :
    (∀ t ∈ [tW8], t ∈ (heapGet stW8 stW8.managerGid).triples) ∧
    rdfs9Infer (heapGet stW8 stW8.managerGid) = some (heapGet stW8 stW8.managerGid) ∧
    (validate_and_commit rdfs9Infer (Except.ok ()) stW8 [tW8]).1 = true ∧
    (heapGet (validate_and_commit rdfs9Infer (Except.ok ()) stW8 [tW8]).2
        (validate_and_commit rdfs9Infer (Except.ok ()) stW8 [tW8]).2.managerGid).triples.length
      = (heapGet stW8 stW8.managerGid).triples.length :=
  ⟨by decide, by decide, by decide,
    (C8_idempotent_commit rdfs9Infer (Except.ok ()) stW8 [tW8]
      (by decide) (by decide) (by decide)).2⟩

def clsConf : Term := Term.uri "http://example.org/ontology#ConferencePaper"

def clsPaper : Term := Term.uri "http://example.org/ontology#Paper"

def wRes : Term := Term.uri "http://example.org/ontology#W1"

def tSubClass : Triple := { subj := clsConf, pred := rdfs_subClassOf, obj := clsPaper }

def tTypeConf : Triple := { subj := wRes, pred := rdf_type, obj := clsConf }

def gC8 : Graph := { triples := [tSubClass, tTypeConf], ns := [] }

def stC8 : SysState := { heap := [gC8], managerGid := 0, checkerGid := 0, schemaGid := 0 }

def stC8after : SysState :=
  (validate_and_commit rdfs9Infer (Except.ok ()) stC8 [tTypeConf]).2

/-- C8 counterexample: committing a batch that is already present in the
committed graph succeeds but raises the committed triple count from 2 to
3, because the inference pass materializes the entailed triple
(W1, rdf:type, Paper) into the sandbox before it is promoted; the claim
that the count never changes is false. -/
theorem C8_counterexample :
    tTypeConf ∈ (heapGet stC8 stC8.managerGid).triples ∧
    (validate_and_commit rdfs9Infer (Except.ok ()) stC8 [tTypeConf]).1 = true ∧
    (heapGet stC8 stC8.managerGid).triples.length = 2 ∧
    (heapGet stC8after stC8after.managerGid).triples.length = 3 :=
  ⟨by decide, by decide, by decide, by decide⟩

/- ===== C9 ===== -/

lemma mutate_many_preserves :
    ∀ (ops : List MutOp) (st : SysState) (gid j : Nat), gid ≠ j →
      heapGet (mutateObjectMany st gid ops) j = heapGet st j ∧
      (mutateObjectMany st gid ops).managerGid = st.managerGid := by
  intro ops
  induction ops with
  | nil => intro st gid j _; exact ⟨rfl, rfl⟩
  | cons op ops ih =>
    intro st gid j h
    have hstep : mutateObjectMany st gid (op :: ops)
        = mutateObjectMany (mutateObject st gid op) gid ops := rfl
    have h1 : heapGet (mutateObject st gid op) j = heapGet st j := by
      cases op with
      | add t => exact heapGet_heapSet_ne st gid j _ h
      | remove t => exact heapGet_heapSet_ne st gid j _ h
    have h2 : (mutateObject st gid op).managerGid = st.managerGid := by
      cases op <;> rfl
    have hrest := ih (mutateObject st gid op) gid j h
    exact ⟨by rw [hstep, hrest.1, h1], by rw [hstep, hrest.2, h2]⟩

/-- C9: the sandbox produced by clone_graph is a fresh object with
exactly the triples and namespace bindings of the committed graph, its
heap index differs from the committed graph object, and no sequence of
add/remove mutations applied to the clone changes the committed graph or
its triple count. -/
theorem C9_clone_isolation (st : SysState) (ops : List MutOp)
    (h : st.managerGid < st.heap.length) :
    heapGet (allocClone st).1 (allocClone st).2 = heapGet st st.managerGid ∧
    (allocClone st).2 ≠ st.managerGid ∧
    heapGet (mutateObjectMany (allocClone st).1 (allocClone st).2 ops) st.managerGid
      = heapGet st st.managerGid ∧
    (heapGet (mutateObjectMany (allocClone st).1 (allocClone st).2 ops)
        st.managerGid).triples.length = (heapGet st st.managerGid).triples.length := by
  have hne : st.heap.length ≠ st.managerGid := (Nat.ne_of_lt h).symm
  have hclone : heapGet (allocClone st).1 (allocClone st).2 = heapGet st st.managerGid := by
    show (st.heap ++ [clone_graph st]).getD st.heap.length Graph.empty = heapGet st st.managerGid
    rw [getD_append_length]
    rfl
  have hmid : heapGet (allocClone st).1 st.managerGid = heapGet st st.managerGid := by
    show (st.heap ++ [clone_graph st]).getD st.managerGid Graph.empty
      = st.heap.getD st.managerGid Graph.empty
    exact getD_append_lt st.heap [clone_graph st] st.managerGid Graph.empty h
  have hops := (mutate_many_preserves ops (allocClone st).1 (allocClone st).2
    st.managerGid hne).1
  refine ⟨hclone, hne, ?_, ?_⟩
  · rw [hops, hmid]
  · rw [hops, hmid]

def stW9 : SysState := { heap := [gC8], managerGid := 0, checkerGid := 0, schemaGid := 0 }

def opsW9 : List MutOp :=
  [ MutOp.add { subj := wRes, pred := rdf_type, obj := clsPaper },
    MutOp.remove tSubClass ]

/-- C9 witness: a concrete clone-then-mutate run (one insertion and one
removal on the sandbox) leaves the committed graph and its triple count
untouched. -/
theorem C9_clone_isolation_witness :
    (stW9.managerGid < stW9.heap.length) ∧
    heapGet (allocClone stW9).1 (allocClone stW9).2 = heapGet stW9 stW9.managerGid ∧
    heapGet (mutateObjectMany (allocClone stW9).1 (allocClone stW9).2 opsW9)
        stW9.managerGid = heapGet stW9 stW9.managerGid :=
  ⟨by decide, (C9_clone_isolation stW9 opsW9 (by decide)).1,
    (C9_clone_isolation stW9 opsW9 (by decide)).2.2.1⟩

/- ===== C10 ===== -/

lemma filter_insert_neg (pr : Triple → Bool) (a : Triple) (l : List Triple)
    (h : pr a = false) : (l.insert a).filter pr = l.filter pr := by
  by_cases hm : a ∈ l
  · rw [List.insert_of_mem hm]
  · rw [List.insert_of_not_mem hm, List.filter_cons, h]
    simp

lemma filter_insert_pos (pr : Triple → Bool) (a : Triple) (l : List Triple)
    (h : pr a = true) (hm : a ∉ l) :
    (l.insert a).filter pr = a :: l.filter pr := by
  rw [List.insert_of_not_mem hm, List.filter_cons, h]
  simp

lemma objectsOf_nil_filter (G : Graph) (s p : Term)
    (h : objectsOf G s p = []) :
    G.triples.filter (fun t => decide (t.subj = s ∧ t.pred = p)) = [] := by
  unfold objectsOf at h
  exact List.map_eq_nil_iff.mp h

/-- Effect of SchemaManager.add_datatype_property on the declared ranges
of the new property: afterwards the captured graph declares exactly the
one range that was just written (given that it declared none before). -/
lemma objectsOf_add_datatype_property (G : Graph) (p dom rng : Term) (lbl : String)
    (h : objectsOf G p rdfs_range = []) :
    objectsOf ((((G.add { subj := p, pred := rdf_type, obj := owl_DatatypeProperty }).add
        { subj := p, pred := rdfs_domain, obj := dom }).add
        { subj := p, pred := rdfs_range, obj := rng }).add
        { subj := p, pred := rdfs_label, obj := Term.lit lbl none (some "en") })
      p rdfs_range = [rng] := by
  have hfil := objectsOf_nil_filter G p rdfs_range h
  have hne1 : rdf_type ≠ rdfs_range := by decide
  have hne2 : rdfs_domain ≠ rdfs_range := by decide
  have hne4 : rdfs_label ≠ rdfs_range := by decide
  have hp1 : decide (p = p ∧ rdf_type = rdfs_range) = false := by
    simp [hne1]
  have hp2 : decide (p = p ∧ rdfs_domain = rdfs_range) = false := by
    simp [hne2]
  have hp3 : decide (p = p ∧ rdfs_range = rdfs_range) = true := by
    simp
  have hp4 : decide (p = p ∧ rdfs_label = rdfs_range) = false := by
    simp [hne4]
  have hmem3 : ({ subj := p, pred := rdfs_range, obj := rng } : Triple)
      ∉ List.insert { subj := p, pred := rdfs_domain, obj := dom }
          (List.insert { subj := p, pred := rdf_type, obj := owl_DatatypeProperty } G.triples) := by
    intro hmem
    rcases List.mem_insert_iff.mp hmem with heq | hmem2
    · exact hne2 (congrArg Triple.pred heq).symm
    · rcases List.mem_insert_iff.mp hmem2 with heq | hmem3
      · exact hne1 (congrArg Triple.pred heq).symm
      · have : ({ subj := p, pred := rdfs_range, obj := rng } : Triple)
            ∈ G.triples.filter (fun t => decide (t.subj = p ∧ t.pred = rdfs_range)) :=
          List.mem_filter.mpr ⟨hmem3, by simp⟩
        rw [hfil] at this
        exact List.not_mem_nil _ this
  unfold objectsOf Graph.add
  dsimp only
  rw [filter_insert_neg _ _ _ hp4]
  rw [filter_insert_pos _ _ _ hp3 hmem3]
  rw [filter_insert_neg _ _ _ hp2, filter_insert_neg _ _ _ hp1, hfil]
  rfl

lemma check_domain_true (schema : Graph) (s p : Term) :
    check_domain schema s p = true := by
  simp [check_domain]

lemma check_constraints_singleton (schema : Graph) (t : Triple) :
    check_constraints schema [t] = check_single_triple schema t.subj t.pred t.obj := by
  simp [check_constraints, List.all_cons]

lemma check_single_false_of_range_false (schema : Graph) (s p o : Term)
    (h : check_range schema p o = false) :
    check_single_triple schema s p o = false := by
  unfold check_single_triple
  rw [check_domain_true, h]
  rfl

lemma check_range_false_of_untyped (g : Graph) (p : Term) (v : String)
    (lang : Option String) (rng : Term)
    (hr : objectsOf g p rdfs_range = [rng]) (hs : rng ≠ xsd_string) :
    check_range g p (Term.lit v none lang) = false := by
  unfold check_range
  rw [hr]
  cases rng with
  | uri u => simp [datatype_eq, hs]
  | lit a b c => simp [datatype_eq, xsd_string]

lemma vac_rejects_of_check_false (rr : Graph → Option Graph)
    (ser : Except String Unit) (st : SysState) (B : List Triple)
    (hc : check_constraints (heapGet st st.checkerGid) B = false) :
    validate_and_commit rr ser st B = (false, st) := by
  by_cases hB : B = []
  · simp [validate_and_commit, hB]
  · simp [validate_and_commit, if_neg hB, hc]

/-- C10 amended: the ConstraintChecker keeps the graph object captured at
ValidationManager construction, and a successful commit rebinds the
OntologyManager reference to a fresh object while leaving the checker
reference on the original object, so later checks consult the original
object rather than the new committed graph.  However, because the
SchemaManager also keeps that same original object, a range declaration
added by later schema evolution lands exactly where the checker looks:
it IS enforced on subsequent validate_and_commit calls (here: an untyped
literal against the evolved integer range is rejected). -/
theorem C10_stale_checker_amended
    (rr rr2 : Graph → Option Graph) (ser ser2 : Except String Unit)
    (st : SysState) (B : List Triple) (p dom subjT : Term) (lbl v : String)
    (lang : Option String)
    (hck : st.schemaGid = st.checkerGid)
    (hlt : st.checkerGid < st.heap.length)
    (hsucc : (validate_and_commit rr ser st B).1 = true)
    (hnorange : objectsOf (heapGet st st.checkerGid) p rdfs_range = []) :
    (validate_and_commit rr ser st B).2.checkerGid = st.checkerGid ∧
    (validate_and_commit rr ser st B).2.managerGid
      ≠ (validate_and_commit rr ser st B).2.checkerGid ∧
    heapGet (validate_and_commit rr ser st B).2 st.checkerGid
      = heapGet st st.checkerGid ∧
    (validate_and_commit rr2 ser2
        (add_datatype_property (validate_and_commit rr ser st B).2 p dom xsd_integer lbl)
        [{ subj := subjT, pred := p, obj := Term.lit v none lang }]).1 = false := by
  obtain ⟨e, _, hst⟩ := vac_success_state rr ser st B hsucc
  have hckR : (validate_and_commit rr ser st B).2.checkerGid = st.checkerGid := by
    rw [hst]
  have hsgR : (validate_and_commit rr ser st B).2.schemaGid = st.checkerGid := by
    rw [hst]; exact hck
  have hmgR : (validate_and_commit rr ser st B).2.managerGid = st.heap.length := by
    rw [hst]
  have hlenR : (validate_and_commit rr ser st B).2.heap.length = st.heap.length + 1 := by
    rw [hst]; simp
  have hRc : heapGet (validate_and_commit rr ser st B).2 st.checkerGid
      = heapGet st st.checkerGid := by
    rw [hst]
    show (st.heap ++ [e]).getD st.checkerGid Graph.empty
      = st.heap.getD st.checkerGid Graph.empty
    exact getD_append_lt st.heap [e] st.checkerGid Graph.empty hlt
  have hbound : st.checkerGid < (validate_and_commit rr ser st B).2.heap.length := by
    rw [hlenR]; omega
  have hg : heapGet
      (add_datatype_property (validate_and_commit rr ser st B).2 p dom xsd_integer lbl)
      st.checkerGid
      = (((((heapGet st st.checkerGid).add
          { subj := p, pred := rdf_type, obj := owl_DatatypeProperty }).add
          { subj := p, pred := rdfs_domain, obj := dom }).add
          { subj := p, pred := rdfs_range, obj := xsd_integer }).add
          { subj := p, pred := rdfs_label, obj := Term.lit lbl none (some "en") }) := by
    unfold add_datatype_property
    rw [hsgR]
    rw [heapGet_heapSet_self _ _ _ hbound]
    rw [hRc]
  have hckS : (add_datatype_property (validate_and_commit rr ser st B).2
      p dom xsd_integer lbl).checkerGid = st.checkerGid := hckR
  have hchk : check_constraints
      (heapGet (add_datatype_property (validate_and_commit rr ser st B).2 p dom xsd_integer lbl)
        (add_datatype_property (validate_and_commit rr ser st B).2 p dom xsd_integer lbl).checkerGid)
      [{ subj := subjT, pred := p, obj := Term.lit v none lang }] = false := by
    rw [hckS, check_constraints_singleton]
    apply check_single_false_of_range_false
    apply check_range_false_of_untyped _ _ _ _ xsd_integer
    · rw [hg]
      exact objectsOf_add_datatype_property _ p dom xsd_integer lbl hnorange
    · decide
  have hfin := vac_rejects_of_check_false rr2 ser2
    (add_datatype_property (validate_and_commit rr ser st B).2 p dom xsd_integer lbl)
    [{ subj := subjT, pred := p, obj := Term.lit v none lang }] hchk
  refine ⟨hckR, ?_, hRc, ?_⟩
  · rw [hmgR, hckR]
    exact (Nat.ne_of_lt hlt).symm
  · rw [hfin]

def gC10 : Graph :=
  { triples := [ { subj := wRes, pred := rdf_type, obj := clsPaper } ], ns := [] }

def stC10 : SysState := { heap := [gC10], managerGid := 0, checkerGid := 0, schemaGid := 0 }

def tOkC10 : Triple :=
  { subj := wRes, pred := Term.uri "http://example.org/ontology#cites",
    obj := Term.uri "http://example.org/ontology#W2" }

def stC10commit : SysState :=
  (validate_and_commit inferNoOp (Except.ok ()) stC10 [tOkC10]).2

def stC10evolved : SysState :=
  add_datatype_property stC10commit pInt clsPaper xsd_integer "page count"

def tBadC10 : Triple := { subj := wRes, pred := pInt, obj := Term.lit "abc" none none }

/-- C10 counterexample: after a successful commit (which rebinds the
manager graph away from the checker object) and a subsequent schema
evolution declaring an integer range for hasPageCount, the next
validate_and_commit of an untyped literal for that property is rejected:
the evolved range declaration IS enforced (it was written to the same
original object the checker consults), refuting the claim that such
declarations are not enforced after the first successful commit.  The
declaration is meanwhile absent from the committed graph object. -/
theorem C10_counterexample :
    (validate_and_commit inferNoOp (Except.ok ()) stC10 [tOkC10]).1 = true ∧
    stC10commit.managerGid ≠ stC10commit.checkerGid ∧
    (validate_and_commit inferNoOp (Except.ok ()) stC10evolved [tBadC10]).1 = false ∧
    ({ subj := pInt, pred := rdfs_range, obj := xsd_integer } : Triple)
      ∉ (heapGet stC10evolved stC10evolved.managerGid).triples :=
  ⟨by decide, by decide, by decide, by decide⟩

/-- C10 witness: the amended theorem instantiated at the concrete run of
the counterexample state. -/
theorem C10_stale_checker_amended_witness :
    (stC10.schemaGid = stC10.checkerGid ∧ stC10.checkerGid < stC10.heap.length ∧
      (validate_and_commit inferNoOp (Except.ok ()) stC10 [tOkC10]).1 = true ∧
      objectsOf (heapGet stC10 stC10.checkerGid) pInt rdfs_range = []) ∧
    (validate_and_commit inferNoOp (Except.ok ()) stC10 [tOkC10]).2.checkerGid
      = stC10.checkerGid ∧
    (validate_and_commit inferNoOp (Except.ok ())
        (add_datatype_property (validate_and_commit inferNoOp (Except.ok ()) stC10 [tOkC10]).2
          pInt clsPaper xsd_integer "page count")
        [{ subj := wRes, pred := pInt, obj := Term.lit "abc" none none }]).1 = false :=
  ⟨⟨by decide, by decide, by decide, by decide⟩,
    (C10_stale_checker_amended inferNoOp inferNoOp (Except.ok ()) (Except.ok ())
      stC10 [tOkC10] pInt clsPaper wRes "page count" "abc" none
      (by decide) (by decide) (by decide) (by decide)).1,
    (C10_stale_checker_amended inferNoOp inferNoOp (Except.ok ()) (Except.ok ())
      stC10 [tOkC10] pInt clsPaper wRes "page count" "abc" none
      (by decide) (by decide) (by decide) (by decide)).2.2.2⟩
